import Mathlib

/-!
Verification development for the bookreview-frontend client.

Shallow embedding of the authentication context (reducer + provider flows),
the API client's request/response interceptors, the favorite-toggle cache
invalidation flow, the recommendation dashboard's tab-content rendering, and
the change-password request construction, with theorems settling the spec's
claims about them.
-/

namespace BookReview

/-- The client-side `User` record (src/types): identity, display name, email,
flags and counts.  `createdAt` is an ISO timestamp string. -/
structure User where
  id : Nat
  name : String
  email : String
  emailVerified : Bool
  active : Bool
  createdAt : String
  reviewCount : Nat
  favoriteBooksCount : Nat
deriving Repr, DecidableEq

/-- The auth state held by the reducer-driven store (`AuthState` in
AuthContext): `{user, token, loading, isAuthenticated}`. -/
structure AuthState where
  user : Option User
  token : Option String
  loading : Bool
  isAuthenticated : Bool
deriving Repr, DecidableEq

/-- The actions of the auth reducer (`AuthAction` in AuthContext). -/
inductive AuthAction where
  | setLoading (b : Bool)
  | loginSuccess (user : User) (token : String)
  | loginFailure
  | doLogout
  | setUser (user : User)
deriving Repr, DecidableEq

/-- `initialState` of the auth store: no user, no token, loading, not
authenticated. -/
def initialState : AuthState :=
  { user := none, token := none, loading := true, isAuthenticated := false }

/-- The auth reducer (`authReducer` in AuthContext), case by case on the
action; each branch spreads the previous state and overrides fields exactly
as the source does. -/
def authReducer (state : AuthState) (action : AuthAction) : AuthState :=
  match action with
  | .setLoading b =>
      { state with loading := b }
  | .loginSuccess u t =>
      { state with user := some u, token := some t, loading := false,
                   isAuthenticated := true }
  | .loginFailure =>
      { state with user := none, token := none, loading := false,
                   isAuthenticated := false }
  | .doLogout =>
      { state with user := none, token := none, loading := false,
                   isAuthenticated := false }
  | .setUser u =>
      { state with user := some u, loading := false, isAuthenticated := true }

/-- The two persisted browser-local entries: `localStorage.token` (raw bearer
string) and `localStorage.user`.  The `user` entry holds the JSON
serialization (`JSON.stringify`) of a `User` record; since `JSON.parse`
round-trips it, it is modelled as the record itself. -/
structure LocalStorage where
  token : Option String
  user : Option User
deriving Repr, DecidableEq

/-- The mutable client environment the auth flows act on: persisted storage,
the API client's default `Authorization` header
(`api.defaults.headers.common['Authorization']`), and the store's state. -/
structure Env where
  storage : LocalStorage
  authHeader : Option String
  state : AuthState
deriving Repr, DecidableEq

/-- `apiService.setAuthToken`: sets the default Authorization header to
`Bearer <token>`. -/
def setAuthToken (env : Env) (token : String) : Env :=
  { env with authHeader := some ("Bearer " ++ token) }

/-- `apiService.clearAuthToken`: deletes the default Authorization header. -/
def clearAuthToken (env : Env) : Env :=
  { env with authHeader := none }

/-- The body of a successful `POST /auth/login` (`JwtResponse`): token plus
the identity fields the provider reads. -/
structure JwtResponse where
  token : String
  userId : Nat
  name : String
  email : String
deriving Repr, DecidableEq

/-- The `User` object the provider's `login` synthesizes from the JWT
response: identity fields copied, `emailVerified := true`, `active := true`,
`createdAt` the current time, and placeholder stats `reviewCount := 0`,
`favoriteBooksCount := 0`. -/
def userFromLoginResponse (resp : JwtResponse) (now : String) : User :=
  { id := resp.userId
    name := resp.name
    email := resp.email
    emailVerified := true
    active := true
    createdAt := now
    reviewCount := 0
    favoriteBooksCount := 0 }

/-- Outcome of the `apiService.login` network call as seen by the provider:
either a parsed `JwtResponse` or a thrown error. -/
inductive LoginOutcome where
  | success (resp : JwtResponse)
  | failure
deriving Repr, DecidableEq

/-- The provider's `login(email, password)`: dispatch `SET_LOADING true`; on
success synthesize the user, write both localStorage entries, set the API
client's default auth header, dispatch `LOGIN_SUCCESS`; on failure dispatch
`LOGIN_FAILURE` and re-throw (the returned `Bool` records whether the error
was re-thrown to the caller). -/
def login (env : Env) (outcome : LoginOutcome) (now : String) : Env × Bool :=
  let env1 := { env with state := authReducer env.state (.setLoading true) }
  match outcome with
  | .success resp =>
      let u := userFromLoginResponse resp now
      let env2 := { env1 with
        storage := { token := some resp.token, user := some u } }
      let env3 := setAuthToken env2 resp.token
      ({ env3 with state := authReducer env3.state (.loginSuccess u resp.token) },
       false)
  | .failure =>
      ({ env1 with state := authReducer env1.state .loginFailure }, true)

/-- Outcome of `apiService.validateToken()` as seen by `initializeAuth`:
the response's `valid` field was true, it was false, or the call threw. -/
inductive ValidationOutcome where
  | valid
  | invalid
  | error
deriving Repr, DecidableEq

/-- The provider's startup `initializeAuth`: read both persisted entries; if
both present, validate the token (the returned `Bool` records that the
validate call was made) — on `valid` parse the persisted user, set the auth
header and dispatch `LOGIN_SUCCESS` with the persisted user; on invalid or on
a thrown validation error remove both entries and dispatch `LOGIN_FAILURE`;
otherwise only dispatch `SET_LOADING false`. -/
def initializeAuth (env : Env) (v : ValidationOutcome) : Env × Bool :=
  match env.storage.token, env.storage.user with
  | some token, some u =>
      match v with
      | .valid =>
          let env1 := setAuthToken env token
          ({ env1 with state := authReducer env1.state (.loginSuccess u token) },
           true)
      | .invalid =>
          ({ env with storage := { token := none, user := none },
                      state := authReducer env.state .loginFailure }, true)
      | .error =>
          ({ env with storage := { token := none, user := none },
                      state := authReducer env.state .loginFailure }, true)
  | _, _ =>
      ({ env with state := authReducer env.state (.setLoading false) }, false)

/-- Outcome of the `apiService.logout()` network call. -/
inductive NetResult where
  | ok
  | err (msg : String)
deriving Repr, DecidableEq

/-- Whether a network outcome is an error (a rejected promise). -/
def netIsErr : NetResult → Bool
  | .ok => false
  | .err _ => true

/-- The provider's `logout()`: try the network call (an error is only
logged — the returned `Bool` records that a log line was emitted); in the
`finally` block unconditionally remove both localStorage entries, clear the
API client's default auth header, and dispatch `LOGOUT`.  The function is
total: no outcome re-throws to the caller. -/
def logoutFlow (env : Env) (net : NetResult) : Env × Bool :=
  let env1 := { env with storage := { token := none, user := none } }
  let env2 := clearAuthToken env1
  ({ env2 with state := authReducer env2.state .doLogout }, netIsErr net)

/-- Whether the character list `pat` matches the front of `l`. -/
def leadsWith : List Char → List Char → Bool
  | [], _ => true
  | _ :: _, [] => false
  | a :: as, b :: bs => a == b && leadsWith as bs

/-- Whether the character list `pat` occurs contiguously inside `l`
(JavaScript's `String.prototype.includes` on the underlying characters). -/
def occursIn (pat : List Char) : List Char → Bool
  | [] => pat.isEmpty
  | c :: cs => leadsWith pat (c :: cs) || occursIn pat cs

/-- `url.includes(pat)` of the interceptor, over the strings' characters. -/
def strIncludes (s pat : String) : Bool :=
  occursIn pat.data s.data

/-- The auth-sensitive test of the response interceptor:
`url.includes('/auth/') || url.includes('/profile')`. -/
def isAuthSensitive (url : String) : Bool :=
  strIncludes url "/auth/" || strIncludes url "/profile"

/-- The error object reaching the response interceptor's rejection handler:
`error.response?.status` and `error.config?.url`, both possibly absent. -/
structure ResponseError where
  status : Option Nat
  url : Option String
deriving Repr, DecidableEq

/-- Observable effects of the response interceptor's error handler: whether
each localStorage entry was removed, where `window.location.href` was set,
and whether the error was rejected onward to the caller. -/
structure InterceptEffects where
  tokenRemoved : Bool
  userRemoved : Bool
  redirectTo : Option String
  rejected : Bool
deriving Repr, DecidableEq

/-- The API client's response interceptor error handler: on a 401 whose
request URL (defaulted to `''` when absent) contains `/auth/` or `/profile`,
remove both persisted entries and redirect to `/login`; in every case reject
the error onward. -/
def responseInterceptorOnError (e : ResponseError) : InterceptEffects :=
  if e.status = some 401 then
    if isAuthSensitive (e.url.getD "") then
      { tokenRemoved := true, userRemoved := true,
        redirectTo := some "/login", rejected := true }
    else
      { tokenRemoved := false, userRemoved := false,
        redirectTo := none, rejected := true }
  else
    { tokenRemoved := false, userRemoved := false,
      redirectTo := none, rejected := true }

/-- An outgoing request's config as the request interceptor sees it: the
`Authorization` header it carries so far (possibly a default set earlier). -/
structure RequestConfig where
  url : String
  authorization : Option String
deriving Repr, DecidableEq

/-- The API client's request interceptor: read `localStorage.getItem('token')`
at request time; if present, overwrite the config's Authorization header with
`Bearer <token>`; otherwise leave the config untouched. -/
def requestInterceptor (storage : LocalStorage) (config : RequestConfig) :
    RequestConfig :=
  match storage.token with
  | some t => { config with authorization := some ("Bearer " ++ t) }
  | none => config

/-- JSON values as they appear in request bodies before serialization;
`undef` is JavaScript's `undefined`, which `JSON.stringify` drops from
objects. -/
inductive JsonValue where
  | str (s : String)
  | num (n : Nat)
  | boolean (b : Bool)
  | undef
deriving Repr, DecidableEq

/-- Serializing an object's fields: `JSON.stringify` omits every field whose
value is `undefined` and keeps the rest in order. -/
def serializeFields (l : List (String × JsonValue)) : List (String × JsonValue) :=
  l.filter fun p => match p.2 with | .undef => false | _ => true

/-- The feedback type union `'like' | 'dislike'`. -/
inductive FeedbackType where
  | like
  | dislike
deriving Repr, DecidableEq

/-- The wire string of a feedback type. -/
def FeedbackType.toStr : FeedbackType → String
  | .like => "like"
  | .dislike => "dislike"

/-- The HTTP request built by `apiService.submitRecommendationFeedback`:
`POST /books/recommendations/{recommendationId}/feedback` with body
`{type, reason}` (the `reason` field is `undefined` when no reason is
passed). -/
structure FeedbackRequest where
  recommendationId : Nat
  body : List (String × JsonValue)
deriving Repr, DecidableEq

/-- `apiService.submitRecommendationFeedback(recommendationId, feedbackType,
reason?)`. -/
def submitRecommendationFeedback (recommendationId : Nat)
    (feedbackType : FeedbackType) (reason : Option String) : FeedbackRequest :=
  { recommendationId := recommendationId
    body := [("type", .str feedbackType.toStr),
             ("reason", match reason with
                        | some r => .str r
                        | none => .undef)] }

/-- The dashboard's `feedbackMutation.mutationFn` applied to the argument
record `handleFeedback` passes: it calls `submitRecommendationFeedback` with
the recommendation id and feedback type, passing no reason. -/
def feedbackMutationFn (recommendationId : Nat) (feedbackType : FeedbackType) :
    FeedbackRequest :=
  submitRecommendationFeedback recommendationId feedbackType none

/-- `RecommendationCard.handleLike`: `onFeedback(book.id, 'like')`, which the
dashboard forwards to the feedback mutation. -/
def handleLike (bookId : Nat) : FeedbackRequest :=
  feedbackMutationFn bookId .like

/-- `RecommendationCard.handleDislike`: `onFeedback(book.id, 'dislike')`. -/
def handleDislike (bookId : Nat) : FeedbackRequest :=
  feedbackMutationFn bookId .dislike

/-- The main block of the dashboard's tab content: loading skeletons, the
error alert, the contextual empty-list alert with its message, or the grid of
recommendation cards. -/
inductive MainContent where
  | skeletons
  | errorAlert
  | emptyAlert (message : String)
  | cards (count : Nat)
deriving Repr, DecidableEq

/-- What the dashboard's tab-content `Box` renders: whether the
"AI Recommendations are not available" alert is present, plus the main
block. -/
structure RenderedTabContent where
  aiNotAvailableAlert : Bool
  content : MainContent
deriving Repr, DecidableEq

/-- The view-state the tab-content rendering reads: the active tab, the AI
response's `aiAvailable` field when loaded, the active query's loading and
error flags, and the current recommendation list (book ids; only its length
matters to the branch taken). -/
structure DashboardRenderState where
  tabValue : Nat
  aiAvailable : Option Bool
  currentLoading : Bool
  currentError : Bool
  currentRecommendations : List Nat
deriving Repr, DecidableEq

/-- The generic empty-list message on the Personalized tab. -/
def personalizedEmptyMsg : String :=
  "No personalized recommendations available right now. Try adding some books to your favorites to get personalized suggestions!"

/-- The generic empty-list message on the AI tab. -/
def aiEmptyMsg : String :=
  "No AI recommendations available. Make sure you have some favorite books and that AI is properly configured."

/-- The dashboard's tab-content rendering: the not-available alert renders
when `tabValue === 1 && aiRecommendationData?.aiAvailable === false`, and —
independently, below it — the chain
`currentLoading ? skeletons : currentError ? error : empty ? alert : cards`. -/
def renderTabContent (s : DashboardRenderState) : RenderedTabContent :=
  { aiNotAvailableAlert :=
      if s.tabValue = 1 ∧ s.aiAvailable = some false then true else false
    content :=
      if s.currentLoading then .skeletons
      else if s.currentError then .errorAlert
      else if s.currentRecommendations.length = 0 then
        .emptyAlert (if s.tabValue = 0 then personalizedEmptyMsg else aiEmptyMsg)
      else .cards s.currentRecommendations.length }

/-- The body of `GET /books/{id}/favorite`: `{favorited, bookId}`. -/
structure FavoriteStatus where
  favorited : Bool
  bookId : Nat
deriving Repr, DecidableEq

/-- The backend state the favorites endpoints consult: the ids of the books
the user has favorited.  The favorite endpoints themselves live server-side;
the client only observes their responses. -/
structure ServerState where
  favorites : List Nat
deriving Repr, DecidableEq

/-- Membership test used by the server model. -/
def hasFav : List Nat → Nat → Bool
  | [], _ => false
  | x :: xs, n => x == n || hasFav xs n

/-- Server response to `apiService.checkFavoriteStatus(bookId)`. -/
def checkFavoriteStatus (srv : ServerState) (bookId : Nat) : FavoriteStatus :=
  { favorited := hasFav srv.favorites bookId, bookId := bookId }

/-- Server effect of a successful `apiService.addToFavorites(bookId)`. -/
def addToFavorites (srv : ServerState) (bookId : Nat) : ServerState :=
  { favorites := bookId :: srv.favorites }

/-- Server effect of a successful `apiService.removeFromFavorites(bookId)`. -/
def removeFromFavorites (srv : ServerState) (bookId : Nat) : ServerState :=
  { favorites := srv.favorites.filter fun x => x != bookId }

/-- Modelled from the spec: a cached query result with its staleness mark —
the query cache is provided by the query library, not by this repository;
per the spec's glossary, `invalidate(key)` marks cached data stale so the
next read triggers a fresh fetch, and does not itself refetch. -/
structure CacheEntry where
  value : FavoriteStatus
  stale : Bool
deriving Repr, DecidableEq

/-- Modelled from the spec: the slice of the query cache the favorite flow
touches — one entry per `['bookFavorite', bookId]` key, plus the staleness
mark of the `['userFavorites']` key. -/
structure QueryCache where
  favStatus : List (Nat × CacheEntry)
  userFavoritesStale : Bool
deriving Repr, DecidableEq

/-- Look up the `['bookFavorite', n]` entry. -/
def lookupEntry : List (Nat × CacheEntry) → Nat → Option CacheEntry
  | [], _ => none
  | p :: rest, n => if p.1 = n then some p.2 else lookupEntry rest n

/-- Drop the `['bookFavorite', n]` entries (used when a fresh fetch replaces
the cached value). -/
def dropEntry : List (Nat × CacheEntry) → Nat → List (Nat × CacheEntry)
  | [], _ => []
  | p :: rest, n => if p.1 = n then dropEntry rest n else p :: dropEntry rest n

/-- Modelled from the spec: `invalidateQueries({queryKey: ['bookFavorite',
bookId]})` — mark the matching entry stale, leaving its value in place. -/
def invalidateBookFavorite (cache : QueryCache) (bookId : Nat) : QueryCache :=
  { cache with favStatus := cache.favStatus.map fun p =>
      if p.1 = bookId then (p.1, { p.2 with stale := true }) else p }

/-- Modelled from the spec: `invalidateQueries({queryKey: ['userFavorites']})`. -/
def invalidateUserFavorites (cache : QueryCache) : QueryCache :=
  { cache with userFavoritesStale := true }

/-- Modelled from the spec: reading the `['bookFavorite', n]` key — serve the
cached value when present and fresh, otherwise fetch from the backend and
store the result fresh.  Returns the value served, the cache afterwards, and
whether a network fetch happened. -/
def readFavStatus (cache : QueryCache) (srv : ServerState) (n : Nat) :
    FavoriteStatus × QueryCache × Bool :=
  let fetched := checkFavoriteStatus srv n
  let refreshed : QueryCache :=
    { cache with favStatus := (n, { value := fetched, stale := false }) ::
        dropEntry cache.favStatus n }
  match lookupEntry cache.favStatus n with
  | some e => if e.stale then (fetched, refreshed, true) else (e.value, cache, false)
  | none => (fetched, refreshed, true)

/-- `FavoriteButton`'s `onSuccess` handler, shared by both mutations:
invalidate `['bookFavorite', bookId]` and `['userFavorites']`. -/
def favoriteToggleOnSuccess (cache : QueryCache) (bookId : Nat) : QueryCache :=
  invalidateUserFavorites (invalidateBookFavorite cache bookId)

/-- A successful `addToFavoritesMutation`: the server applies the add, then
`onSuccess` invalidates the two keys. -/
def addToFavoritesFlow (srv : ServerState) (cache : QueryCache) (bookId : Nat) :
    ServerState × QueryCache :=
  (addToFavorites srv bookId, favoriteToggleOnSuccess cache bookId)

/-- A successful `removeFromFavoritesMutation`: the server applies the
removal, then `onSuccess` invalidates the two keys. -/
def removeFromFavoritesFlow (srv : ServerState) (cache : QueryCache)
    (bookId : Nat) : ServerState × QueryCache :=
  (removeFromFavorites srv bookId, favoriteToggleOnSuccess cache bookId)

/-- The `PasswordChangeData` form record: current, new and confirmation
passwords. -/
structure PasswordChangeData where
  currentPassword : String
  newPassword : String
  confirmPassword : String
deriving Repr, DecidableEq

/-- The HTTP request built by `apiService.changePassword`:
`PUT /auth/change-password` with a body of string fields. -/
structure ChangePasswordRequest where
  path : String
  body : List (String × String)
deriving Repr, DecidableEq

/-- `apiService.changePassword(passwordData)`: the body picks exactly
`currentPassword` and `newPassword` out of the form record. -/
def apiChangePassword (d : PasswordChangeData) : ChangePasswordRequest :=
  { path := "/auth/change-password"
    body := [("currentPassword", d.currentPassword),
             ("newPassword", d.newPassword)] }

/-- The provider's `changePassword(passwordData)` up to the point the request
is handed to the network: a local mismatch between `newPassword` and
`confirmPassword` throws before any request; otherwise the request built by
`apiService.changePassword` goes out. -/
def providerChangePassword (d : PasswordChangeData) :
    Except String ChangePasswordRequest :=
  if d.newPassword ≠ d.confirmPassword then
    .error "New password and confirm password do not match"
  else
    .ok (apiChangePassword d)

/-- A concrete user record used by witnesses and counterexamples. -/
def sampleUser : User :=
  { id := 1, name := "Test User", email := "t@e.com", emailVerified := true,
    active := true, createdAt := "2024-01-01T00:00:00Z", reviewCount := 0,
    favoriteBooksCount := 0 }

/-- C1: a `login` call whose backend request succeeds leaves the store
authenticated with the user synthesized from the response (placeholder stats
`reviewCount = 0`, `favoriteBooksCount = 0`, `emailVerified = true`), the
persisted `token` entry equal to the response token, the persisted `user`
entry the (serialized) synthesized user, and the API client's default
Authorization header set from that token. -/
theorem login_success_authenticates (env : Env) (resp : JwtResponse)
    (now : String) :
    ((login env (.success resp) now).1.state.isAuthenticated = true) ∧
    ((login env (.success resp) now).1.state.user =
        some (userFromLoginResponse resp now)) ∧
    ((login env (.success resp) now).1.state.token = some resp.token) ∧
    ((login env (.success resp) now).1.state.loading = false) ∧
    ((userFromLoginResponse resp now).id = resp.userId) ∧
    ((userFromLoginResponse resp now).name = resp.name) ∧
    ((userFromLoginResponse resp now).email = resp.email) ∧
    ((userFromLoginResponse resp now).reviewCount = 0) ∧
    ((userFromLoginResponse resp now).favoriteBooksCount = 0) ∧
    ((userFromLoginResponse resp now).emailVerified = true) ∧
    ((login env (.success resp) now).1.storage.token = some resp.token) ∧
    ((login env (.success resp) now).1.storage.user =
        some (userFromLoginResponse resp now)) ∧
    ((login env (.success resp) now).1.authHeader =
        some ("Bearer " ++ resp.token)) :=
  ⟨rfl, rfl, rfl, rfl, rfl, rfl, rfl, rfl, rfl, rfl, rfl, rfl, rfl⟩

/-- C3: whatever the logout network call's outcome, `logout()` removes both
persisted entries, clears the API client's default Authorization header, and
leaves the store unauthenticated with `loading = false`; a network error is
only logged (the flow is total — it never re-throws). -/
theorem logout_always_clears (env : Env) (net : NetResult) :
    ((logoutFlow env net).1.storage.token = none) ∧
    ((logoutFlow env net).1.storage.user = none) ∧
    ((logoutFlow env net).1.authHeader = none) ∧
    ((logoutFlow env net).1.state =
       { user := none, token := none, loading := false,
         isAuthenticated := false }) ∧
    ((logoutFlow env net).2 = netIsErr net) :=
  ⟨rfl, rfl, rfl, rfl, rfl⟩

/-- C2 counterexample: at startup with a persisted token but no persisted
user, the code only dispatches `SET_LOADING false` — the lone `token` entry
is NOT cleared from storage, contradicting the claim that absence of either
entry clears persisted state. -/
theorem initializeAuth_absent_keeps_token :
    ((initializeAuth { storage := { token := some "tok", user := none },
                       authHeader := none, state := initialState } .valid).1.storage.token
        = some "tok") ∧
    ((initializeAuth { storage := { token := some "tok", user := none },
                       authHeader := none, state := initialState } .valid).2 = false) ∧
    ((initializeAuth { storage := { token := some "tok", user := none },
                       authHeader := none, state := initialState } .valid).1.state.isAuthenticated
        = false) ∧
    ((initializeAuth { storage := { token := some "tok", user := none },
                       authHeader := none, state := initialState } .valid).1.state.loading
        = false) :=
  ⟨rfl, rfl, rfl, rfl⟩

/-- C2 (amended): at startup, if both persisted entries are present the
validate call is made; on a valid result the store is authenticated with the
persisted user object; on an invalid result or a validation error both
entries are removed and the store is unauthenticated.  If either entry is
absent, no validate call is made, storage is left untouched (not cleared),
and the store only ends unauthenticated with `loading = false`. -/
theorem initializeAuth_spec (env : Env) (v : ValidationOutcome)
    (h : env.state = initialState) :
    (∀ t u, env.storage = { token := some t, user := some u } →
       ((initializeAuth env v).2 = true) ∧
       (v = .valid →
          (initializeAuth env v).1.state =
            { user := some u, token := some t, loading := false,
              isAuthenticated := true } ∧
          (initializeAuth env v).1.storage = env.storage ∧
          (initializeAuth env v).1.authHeader = some ("Bearer " ++ t)) ∧
       (v ≠ .valid →
          (initializeAuth env v).1.storage.token = none ∧
          (initializeAuth env v).1.storage.user = none ∧
          (initializeAuth env v).1.state =
            { user := none, token := none, loading := false,
              isAuthenticated := false })) ∧
    ((env.storage.token = none ∨ env.storage.user = none) →
       ((initializeAuth env v).2 = false) ∧
       ((initializeAuth env v).1.storage = env.storage) ∧
       ((initializeAuth env v).1.state =
          { user := none, token := none, loading := false,
            isAuthenticated := false })) := by
  obtain ⟨⟨st, su⟩, ah, s⟩ := env
  simp only [Env.state] at h
  subst h
  constructor
  · rintro t u hsu
    cases hsu
    cases v with
    | valid =>
        refine ⟨rfl, fun _ => ⟨rfl, rfl, rfl⟩, fun hv => absurd rfl hv⟩
    | invalid =>
        refine ⟨rfl, ?_, ?_⟩
        · intro hv; exact absurd hv (by decide)
        · intro _; exact ⟨rfl, rfl, rfl⟩
    | error =>
        refine ⟨rfl, ?_, ?_⟩
        · intro hv; exact absurd hv (by decide)
        · intro _; exact ⟨rfl, rfl, rfl⟩
  · rintro (hn | hn)
    · simp only [LocalStorage.token] at hn
      subst hn
      exact ⟨rfl, rfl, rfl⟩
    · simp only [LocalStorage.user] at hn
      subst hn
      cases st with
      | none => exact ⟨rfl, rfl, rfl⟩
      | some t => exact ⟨rfl, rfl, rfl⟩

/-- Witness for the amended C2 theorem at a concrete environment: both
entries present and the validate endpoint reporting valid. -/
theorem initializeAuth_spec_witness :
    ((initializeAuth { storage := { token := some "t", user := some sampleUser },
                       authHeader := none, state := initialState } .valid).2 = true) ∧
    ((initializeAuth { storage := { token := some "t", user := some sampleUser },
                       authHeader := none, state := initialState } .valid).1.state =
       { user := some sampleUser, token := some "t", loading := false,
         isAuthenticated := true }) := by
  have h := initializeAuth_spec
    { storage := { token := some "t", user := some sampleUser },
      authHeader := none, state := initialState } .valid rfl
  have h2 := h.1 "t" sampleUser rfl
  exact ⟨h2.1, (h2.2.1 rfl).1⟩

/-- C5 counterexample: from the unauthenticated initial state, the `SET_USER`
action transitions to `isAuthenticated = true` without setting a token — the
resulting state's token is still `none`, so not every transition to
authenticated sets the token in the same state update. -/
theorem authReducer_setUser_no_token :
    ((authReducer initialState (.setUser sampleUser)).isAuthenticated = true) ∧
    ((authReducer initialState (.setUser sampleUser)).token = none) ∧
    ((authReducer initialState (.setUser sampleUser)).loading = false) ∧
    (initialState.isAuthenticated = false) :=
  ⟨rfl, rfl, rfl, rfl⟩

/-- States reachable from the auth store's initial state under reducer
actions. -/
inductive Reachable : AuthState → Prop where
  | init : Reachable initialState
  | step (s : AuthState) (a : AuthAction) : Reachable s →
      Reachable (authReducer s a)

/-- C5 (amended): every reducer transition from an unauthenticated state to
`isAuthenticated = true` sets `loading = false` and a non-null user in the
same state update (`LOGIN_SUCCESS` additionally sets the token; `SET_USER`
keeps the previous token), and from the initial state no sequence of actions
reaches a state with `isAuthenticated = true` and `user = null`. -/
theorem authReducer_auth_invariant :
    (∀ (s : AuthState) (a : AuthAction),
       s.isAuthenticated = false → (authReducer s a).isAuthenticated = true →
       (authReducer s a).loading = false ∧ (authReducer s a).user ≠ none) ∧
    (∀ s, Reachable s → s.isAuthenticated = true → s.user ≠ none) := by
  constructor
  · intro s a h1 h2
    cases a with
    | setLoading b =>
        exact absurd h2 (by simp [authReducer, h1])
    | loginSuccess u t => exact ⟨rfl, by simp [authReducer]⟩
    | loginFailure => exact absurd h2 (by simp [authReducer])
    | doLogout => exact absurd h2 (by simp [authReducer])
    | setUser u => exact ⟨rfl, by simp [authReducer]⟩
  · intro s hr
    induction hr with
    | init => intro h; exact absurd h (by simp [initialState])
    | step s a _ ih =>
        cases a with
        | setLoading b => intro h; exact ih h
        | loginSuccess u t => intro _; simp [authReducer]
        | loginFailure => intro h; exact absurd h (by simp [authReducer])
        | doLogout => intro h; exact absurd h (by simp [authReducer])
        | setUser u => intro _; simp [authReducer]

/-- Witness for the amended C5 theorem: the `LOGIN_SUCCESS` transition from
the initial state. -/
theorem authReducer_auth_invariant_witness :
    ((authReducer initialState (.loginSuccess sampleUser "tk")).loading = false) ∧
    ((authReducer initialState (.loginSuccess sampleUser "tk")).user ≠ none) :=
  authReducer_auth_invariant.1 initialState (.loginSuccess sampleUser "tk") rfl rfl

/-- C4: the response interceptor wipes both persisted entries and redirects
to the login view exactly on a 401 whose request URL contains `/auth/` or
`/profile`; a 401 on any other path has no side effect; and in every case the
error is rejected onward to the caller. -/
theorem interceptor_401_handling (e : ResponseError) :
    ((e.status = some 401 ∧ isAuthSensitive (e.url.getD "") = true) →
       responseInterceptorOnError e =
         { tokenRemoved := true, userRemoved := true,
           redirectTo := some "/login", rejected := true }) ∧
    (isAuthSensitive (e.url.getD "") = false →
       (responseInterceptorOnError e).tokenRemoved = false ∧
       (responseInterceptorOnError e).userRemoved = false ∧
       (responseInterceptorOnError e).redirectTo = none) ∧
    (e.status ≠ some 401 →
       (responseInterceptorOnError e).tokenRemoved = false ∧
       (responseInterceptorOnError e).userRemoved = false ∧
       (responseInterceptorOnError e).redirectTo = none) ∧
    ((responseInterceptorOnError e).rejected = true) := by
  unfold responseInterceptorOnError
  by_cases h1 : e.status = some 401
  · by_cases h2 : isAuthSensitive (e.url.getD "") = true
    · simp [h1, h2]
    · simp [h1, h2]
  · simp [h1]

/-- Witness for C4 at a 401 on an auth-sensitive URL. -/
theorem interceptor_401_handling_witness :
    responseInterceptorOnError { status := some 401, url := some "/auth/validate" } =
      { tokenRemoved := true, userRemoved := true,
        redirectTo := some "/login", rejected := true } :=
  (interceptor_401_handling { status := some 401, url := some "/auth/validate" }).1
    ⟨rfl, by decide⟩

/-- C7: the request interceptor reads the token from persisted localStorage
at request time; whenever storage holds a token it overwrites whatever
Authorization header the outgoing config carried (defaults/cached values
included) with `Bearer <token>`, so a token rotated mid-session is used by
the next request. -/
theorem request_uses_stored_token (storage : LocalStorage)
    (config : RequestConfig) (t : String) (h : storage.token = some t) :
    ((requestInterceptor storage config).authorization =
       some ("Bearer " ++ t)) ∧
    ((requestInterceptor storage config).url = config.url) := by
  unfold requestInterceptor
  rw [h]
  exact ⟨rfl, rfl⟩

/-- Witness for C7: storage holds a rotated token while the config still
carries the stale header; the outgoing request uses the rotated token. -/
theorem request_uses_stored_token_witness :
    (requestInterceptor { token := some "rotated", user := none }
        { url := "/books", authorization := some ("Bearer " ++ "stale") }).authorization
      = some ("Bearer " ++ "rotated") :=
  (request_uses_stored_token { token := some "rotated", user := none }
      { url := "/books", authorization := some ("Bearer " ++ "stale") }
      "rotated" rfl).1

/-- C8: for a recommendation card for book id `n`, the like action produces a
feedback request to the endpoint for recommendation id `n` whose serialized
body is exactly `{type: "like"}` (the unset `reason` field is `undefined` and
dropped by serialization — no extra fields); symmetrically for dislike.  The
request is a pure function of the book id and feedback type, so repeated
submissions for the same book are identical independent events. -/
theorem feedback_payload_exact (n : Nat) :
    ((handleLike n).recommendationId = n) ∧
    (serializeFields (handleLike n).body = [("type", .str "like")]) ∧
    ((handleDislike n).recommendationId = n) ∧
    (serializeFields (handleDislike n).body = [("type", .str "dislike")]) ∧
    (handleLike n = feedbackMutationFn n .like) ∧
    (handleDislike n = feedbackMutationFn n .dislike) :=
  ⟨rfl, rfl, rfl, rfl, rfl, rfl⟩

/-- C9 counterexample: with the AI tab active, `aiAvailable: false`, and an
empty recommendation list (not loading, no error), the view renders the
"not available" alert AND the generic empty-list alert below it — not the
former "rather than" the latter. -/
theorem ai_not_available_renders_both :
    ((renderTabContent
        { tabValue := 1, aiAvailable := some false, currentLoading := false,
          currentError := false, currentRecommendations := [] }).aiNotAvailableAlert
      = true) ∧
    ((renderTabContent
        { tabValue := 1, aiAvailable := some false, currentLoading := false,
          currentError := false, currentRecommendations := [] }).content
      = .emptyAlert aiEmptyMsg) := by
  constructor <;> decide

/-- C9 (amended): when the AI tab is active and the server reports
`aiAvailable: false`, the "not available" explanatory alert is rendered in
addition to (not instead of) the generic empty-list message; for the same
empty list with `aiAvailable: true`, unknown availability, or the
Personalized tab, the "not available" alert is absent — so the two conditions
are still distinguished for identical `recommendations: []`. -/
theorem ai_not_available_distinguished :
    ((renderTabContent
        { tabValue := 1, aiAvailable := some false, currentLoading := false,
          currentError := false, currentRecommendations := [] }) =
      { aiNotAvailableAlert := true, content := .emptyAlert aiEmptyMsg }) ∧
    ((renderTabContent
        { tabValue := 1, aiAvailable := some true, currentLoading := false,
          currentError := false, currentRecommendations := [] }) =
      { aiNotAvailableAlert := false, content := .emptyAlert aiEmptyMsg }) ∧
    ((renderTabContent
        { tabValue := 1, aiAvailable := none, currentLoading := false,
          currentError := false, currentRecommendations := [] }).aiNotAvailableAlert
      = false) ∧
    ((renderTabContent
        { tabValue := 0, aiAvailable := some false, currentLoading := false,
          currentError := false, currentRecommendations := [] }) =
      { aiNotAvailableAlert := false,
        content := .emptyAlert personalizedEmptyMsg }) := by
  refine ⟨?_, ?_, ?_, ?_⟩ <;> decide

/-- Marking the `['bookFavorite', n]` entry stale changes only the staleness
mark: the lookup afterwards returns the same value, now marked stale. -/
theorem lookupEntry_markStale (l : List (Nat × CacheEntry)) (n : Nat) :
    lookupEntry
      (l.map fun p => if p.1 = n then (p.1, { p.2 with stale := true }) else p) n
      = (lookupEntry l n).map fun e => { e with stale := true } := by
  induction l with
  | nil => rfl
  | cons p rest ih =>
      by_cases h : p.1 = n <;> simp [lookupEntry, h, ih]

/-- A book id never survives filtering itself out of the favorites list. -/
theorem hasFav_filter_ne (l : List Nat) (n : Nat) :
    hasFav (l.filter fun x => x != n) n = false := by
  induction l with
  | nil => rfl
  | cons x xs ih =>
      by_cases h : x = n
      · subst h
        simpa using ih
      · simp only [List.filter_cons]
        have hb : (x != n) = true := by simpa using h
        simp [hb, hasFav, ih]
        simpa using h

/-- C6: after a successful favorite-toggle mutation for book id `n`, the
`['userFavorites']` key is invalidated and the `['bookFavorite', n]` key is
stale (its cached value untouched — invalidation marks-for-refetch without
refetching), so the next read of that key performs a network fetch and
returns the new server truth: `favorited: true` after `addToFavorites`,
`favorited: false` after `removeFromFavorites`, whatever the key previously
reported. -/
theorem favorite_toggle_invalidates (srv : ServerState) (cache : QueryCache)
    (n : Nat) :
    ((addToFavoritesFlow srv cache n).2.userFavoritesStale = true) ∧
    ((readFavStatus (addToFavoritesFlow srv cache n).2
        (addToFavoritesFlow srv cache n).1 n).2.2 = true) ∧
    ((readFavStatus (addToFavoritesFlow srv cache n).2
        (addToFavoritesFlow srv cache n).1 n).1 =
      { favorited := true, bookId := n }) ∧
    ((removeFromFavoritesFlow srv cache n).2.userFavoritesStale = true) ∧
    ((readFavStatus (removeFromFavoritesFlow srv cache n).2
        (removeFromFavoritesFlow srv cache n).1 n).2.2 = true) ∧
    ((readFavStatus (removeFromFavoritesFlow srv cache n).2
        (removeFromFavoritesFlow srv cache n).1 n).1 =
      { favorited := false, bookId := n }) ∧
    ((lookupEntry (favoriteToggleOnSuccess cache n).favStatus n).map
        CacheEntry.value
      = (lookupEntry cache.favStatus n).map CacheEntry.value) := by
  have hmark :
      lookupEntry (favoriteToggleOnSuccess cache n).favStatus n
        = (lookupEntry cache.favStatus n).map fun e => { e with stale := true } := by
    simpa [favoriteToggleOnSuccess, invalidateUserFavorites,
           invalidateBookFavorite] using lookupEntry_markStale cache.favStatus n
  have haddSrv : checkFavoriteStatus (addToFavoritesFlow srv cache n).1 n =
      { favorited := true, bookId := n } := by
    simp [addToFavoritesFlow, addToFavorites, checkFavoriteStatus, hasFav]
  have hremSrv : checkFavoriteStatus (removeFromFavoritesFlow srv cache n).1 n =
      { favorited := false, bookId := n } := by
    simp [removeFromFavoritesFlow, removeFromFavorites, checkFavoriteStatus,
          hasFav_filter_ne]
  have hcaches : (addToFavoritesFlow srv cache n).2 = favoriteToggleOnSuccess cache n := rfl
  have hcaches2 : (removeFromFavoritesFlow srv cache n).2 = favoriteToggleOnSuccess cache n := rfl
  refine ⟨rfl, ?_, ?_, rfl, ?_, ?_, ?_⟩
  · rw [hcaches]
    unfold readFavStatus
    rw [hmark]
    cases lookupEntry cache.favStatus n <;> simp
  · rw [hcaches]
    unfold readFavStatus
    rw [hmark]
    cases lookupEntry cache.favStatus n <;> simp [haddSrv]
  · rw [hcaches2]
    unfold readFavStatus
    rw [hmark]
    cases lookupEntry cache.favStatus n <;> simp
  · rw [hcaches2]
    unfold readFavStatus
    rw [hmark]
    cases lookupEntry cache.favStatus n <;> simp [hremSrv]
  · rw [hmark]
    cases lookupEntry cache.favStatus n <;> simp

/-- C10: a `changePassword` call that reaches the network (the new and
confirmation passwords match — a mismatch throws locally before any request)
sends a body holding exactly the `currentPassword` and `newPassword` fields
to `PUT /auth/change-password`; no `confirmPassword` field is transmitted. -/
theorem changePassword_body_exact (d : PasswordChangeData)
    (h : d.newPassword = d.confirmPassword) :
    (providerChangePassword d = .ok (apiChangePassword d)) ∧
    ((apiChangePassword d).body =
       [("currentPassword", d.currentPassword),
        ("newPassword", d.newPassword)]) ∧
    ((apiChangePassword d).body.map Prod.fst =
       ["currentPassword", "newPassword"]) ∧
    (((apiChangePassword d).body.map Prod.fst).contains "confirmPassword"
       = false) ∧
    ((apiChangePassword d).path = "/auth/change-password") := by
  refine ⟨?_, rfl, rfl, rfl, rfl⟩
  simp [providerChangePassword, h]

/-- Witness for C10 at a concrete matching form record. -/
theorem changePassword_body_exact_witness :
    (providerChangePassword
        { currentPassword := "old", newPassword := "new",
          confirmPassword := "new" } =
      .ok (apiChangePassword
        { currentPassword := "old", newPassword := "new",
          confirmPassword := "new" })) ∧
    (((apiChangePassword
        { currentPassword := "old", newPassword := "new",
          confirmPassword := "new" }).body.map Prod.fst).contains
        "confirmPassword" = false) := by
  have h := changePassword_body_exact
    { currentPassword := "old", newPassword := "new", confirmPassword := "new" }
    rfl
  exact ⟨h.1, h.2.2.2.1⟩

end BookReview
